import Mathlib

/-!
Book API: handler → service → repository → storage

A shallow embedding of the three layers of the book API
(`api/handlers/book_handler.go`, `internal/app/book_service.go`,
`internal/repository/book_repo_mysql.go`, `internal/repository/book_repository.go`).

* Go methods that touch storage become functions that take the state of the store
  and return the Go results together with the next state.
* A Go `error` result is `Option GoError` (`none` is `nil`); a `*domain.Book`
  result is `Option Book` (`none` is the nil pointer); a `[]domain.Book` is a
  `Slice Book`, which keeps Go's difference between the nil slice and an empty one.
* The `database/sql` handle, `encoding/json` and `net/http` are libraries outside
  the repository. They are modelled by the small definitions of the sections
  "Storage" and "Transport", which follow the documented behaviour of the calls
  the repository makes.
-/

namespace MyFirstGoApp

/-! ## Go values -/

/-- A Go slice: `nil` is the nil slice (the value of `var s []T`), `of xs` is a
non-nil slice holding `xs`. -/
inductive Slice (α : Type) where
  | nil
  | of (items : List α)
deriving DecidableEq, Repr

/-- Go `append(s, x)`: appending to the nil slice allocates a non-nil one. -/
def Slice.append {α : Type} : Slice α → α → Slice α
  | .nil, x => .of [x]
  | .of xs, x => .of (xs ++ [x])

/-- The elements of a slice, in order; the nil slice has none. -/
def Slice.toList {α : Type} : Slice α → List α
  | .nil => []
  | .of xs => xs

/-- Go `len(s)`. -/
def Slice.len {α : Type} (s : Slice α) : Nat := s.toList.length

/-- Modelled from the spec: the struct `domain.Book` (package `internal/domain`
is not among the sources). Four fields, `ID`, `Title`, `Author` strings and
`Year` an integer; the field names are the ones the repository and the
handlers select. -/
structure Book where
  ID : String
  Title : String
  Author : String
  Year : Int
deriving DecidableEq, Repr

/-- The zero value of `domain.Book`, what `var book domain.Book` declares. -/
def Book.zero : Book := ⟨"", "", "", 0⟩

/-- Go `error` values that flow through the three layers.
`ErrNoRows` is `sql.ErrNoRows`; `ErrBadConn` is the driver's error when the
store cannot be reached; `ErrDuplicate` is the primary-key violation;
`ErrStatement` a statement the store rejects; `ErrScan` a column that cannot be
converted into its destination; `Other` any further error value that an
implementation of the repository interface may return. -/
inductive GoError where
  | ErrNoRows
  | ErrBadConn
  | ErrDuplicate (key : String)
  | ErrStatement
  | ErrScan
  | Other (msg : String)
deriving DecidableEq, Repr

/-- The method `Error()` of an error value: its message. -/
def GoError.Error : GoError → String
  | .ErrNoRows => "sql: no rows in result set"
  | .ErrBadConn => "driver: bad connection"
  | .ErrDuplicate key => "Error 1062: Duplicate entry " ++ key ++ " for key PRIMARY"
  | .ErrStatement => "Error 1064: statement rejected"
  | .ErrScan => "sql: Scan error"
  | .Other msg => msg

/-! ## Storage

The table `books` behind the `database/sql` handle, and the three calls the
repository makes on the handle. -/

/-- The columns of the table `books`. -/
inductive Column where
  | id
  | title
  | author
  | year
deriving DecidableEq, Repr

/-- A value bound to a placeholder or delivered in a result row. -/
inductive Value where
  | str (s : String)
  | int (i : Int)
deriving DecidableEq, Repr

/-- One row of the table `books`: `id` (string, primary key), `title`,
`author` (strings), `year` (integer). -/
structure Record where
  id : String
  title : String
  author : String
  year : Int
deriving DecidableEq, Repr

/-- The book a row of the table is read back as. -/
def Record.toBook (r : Record) : Book := ⟨r.id, r.title, r.author, r.year⟩

/-- The row every column assignment of an INSERT starts from. -/
def Record.blank : Record := ⟨"", "", "", 0⟩

/-- The value of one column of a row. -/
def Record.get (r : Record) : Column → Value
  | .id => .str r.id
  | .title => .str r.title
  | .author => .str r.author
  | .year => .int r.year

/-- Store a value in one column of a row; a value of the wrong type is
rejected. -/
def Record.set (r : Record) : Column → Value → Option Record
  | .id, .str s => some { r with id := s }
  | .title, .str s => some { r with title := s }
  | .author, .str s => some { r with author := s }
  | .year, .int i => some { r with year := i }
  | _, _ => none

/-- Assign a list of values to a list of columns, position by position. The
two lists must have the same length. -/
def Record.assign : List Column → List Value → Record → Option Record
  | [], [], r => some r
  | c :: cs, v :: vs, r => (r.set c v).bind (Record.assign cs vs)
  | _, _, _ => none

/-- The values of the listed columns of a row, in the order listed. -/
def Record.project (cols : List Column) (r : Record) : List Value :=
  cols.map r.get

/-- The statements the repository sends, with their column lists kept in the
order written in the query text:
* `insert cols`      is `INSERT INTO books (cols) VALUES (?, ..., ?)`,
* `selectById cols`  is `SELECT cols FROM books WHERE id = ?`,
* `selectAll cols`   is `SELECT cols FROM books`,
* `update sets`      is `UPDATE books SET c1=?, ..., cn=? WHERE id=?`,
* `delete`           is `DELETE FROM books WHERE id = ?`. -/
inductive Stmt where
  | insert (cols : List Column)
  | selectById (cols : List Column)
  | selectAll (cols : List Column)
  | update (sets : List Column)
  | delete
deriving DecidableEq, Repr

/-- The state of the connection to the store: `up` (reachable), `down`
(unreachable: every call fails), or `dropsAfter n` (statements are accepted,
and the connection fails once `n` rows of a result set have been delivered). -/
inductive Link where
  | up
  | down
  | dropsAfter (n : Nat)
deriving DecidableEq, Repr

/-- The store behind `*sql.DB`: the connection and the rows of `books`. -/
structure DB where
  link : Link
  books : List Record
deriving DecidableEq, Repr

/-- The `sql.Result` of an execute call. -/
structure Result where
  rowsAffected : Nat
deriving DecidableEq, Repr

/-- The rows selected by `WHERE id = key`. -/
def Record.hit (key : Value) (r : Record) : Bool := Value.str r.id == key

/-- The row an UPDATE leaves in place of `r`. -/
def Record.updated (sets : List Column) (vals : List Value) (key : Value) (r : Record) : Record :=
  if r.hit key then (Record.assign sets vals r).getD r else r

/-- `DB.ExecContext(ctx, query, args...)`: runs a statement that returns no
rows. An unreachable store fails with `ErrBadConn` and is left as it is. An
INSERT of an `id` that is already present fails with `ErrDuplicate`. UPDATE and
DELETE of an `id` that is absent succeed with zero rows affected. A SET of the
key column is not part of this model and is rejected. -/
def DB.ExecContext (db : DB) (query : Stmt) (args : List Value) :
    (Option Result × Option GoError) × DB :=
  match db.link with
  | .down => ((none, some .ErrBadConn), db)
  | _ =>
    match query with
    | .insert cols =>
      match Record.assign cols args Record.blank with
      | none => ((none, some .ErrStatement), db)
      | some r =>
        if db.books.any (fun x => x.id == r.id) then
          ((none, some (.ErrDuplicate r.id)), db)
        else
          ((some ⟨1⟩, none), { db with books := db.books ++ [r] })
    | .update sets =>
      match args.drop sets.length with
      | [key] =>
        let vals := args.take sets.length
        if sets.contains .id then ((none, some .ErrStatement), db)
        else
          match Record.assign sets vals Record.blank with
          | none => ((none, some .ErrStatement), db)
          | some _ =>
            let changed := db.books.filter (fun x => decide (Record.updated sets vals key x ≠ x))
            ((some ⟨changed.length⟩, none),
              { db with books := db.books.map (Record.updated sets vals key) })
      | _ => ((none, some .ErrStatement), db)
    | .delete =>
      match args with
      | [key] =>
        ((some ⟨(db.books.filter (Record.hit key)).length⟩, none),
          { db with books := db.books.filter (fun x => !(x.hit key)) })
      | _ => ((none, some .ErrStatement), db)
    | .selectById _ => ((none, some .ErrStatement), db)
    | .selectAll _ => ((none, some .ErrStatement), db)

/-- The cursor `*sql.Rows`: the rows that `Next` will still deliver, and the
error (`Rows.Err()`) that ended the result set early, if any. `Next` returns
false both when the rows are exhausted and when the error struck. -/
structure Rows where
  pending : List (List Value)
  err : Option GoError
deriving DecidableEq, Repr

/-- The complete result set of a query, or `none` for a statement the store
rejects. -/
def DB.resultSet (db : DB) (query : Stmt) (args : List Value) : Option (List (List Value)) :=
  match query, args with
  | .selectAll cols, [] => some (db.books.map (Record.project cols))
  | .selectById cols, [key] => some ((db.books.filter (Record.hit key)).map (Record.project cols))
  | _, _ => none

/-- What of a result set arrives over the connection. -/
def Rows.stream (link : Link) (rs : List (List Value)) : Rows :=
  match link with
  | .dropsAfter n => if n < rs.length then ⟨rs.take n, some .ErrBadConn⟩ else ⟨rs, none⟩
  | _ => ⟨rs, none⟩

/-- `DB.QueryContext(ctx, query, args...)`: a cursor over the result set, or an
error when the store is unreachable or rejects the statement. Queries do not
change the store. -/
def DB.QueryContext (db : DB) (query : Stmt) (args : List Value) : Option Rows × Option GoError :=
  match db.link with
  | .down => (none, some .ErrBadConn)
  | link =>
    match db.resultSet query args with
    | none => (none, some .ErrStatement)
    | some rs => (some (Rows.stream link rs), none)

/-- The destinations `&book.ID`, `&book.Title`, `&book.Author`, `&book.Year`
that a `Scan` call is given. -/
inductive Field where
  | ID
  | Title
  | Author
  | Year
deriving DecidableEq, Repr

/-- The text of a value, as `Scan` stores it in a `*string`. -/
def Value.asString : Value → String
  | .str s => s
  | .int i => toString i

/-- `Scan` of one column into one destination: a string destination takes the
text of the value, the integer destination takes an integer or the decimal text
of one. -/
def Field.store (b : Book) : Field → Value → Except GoError Book
  | .ID, v => .ok { b with ID := v.asString }
  | .Title, v => .ok { b with Title := v.asString }
  | .Author, v => .ok { b with Author := v.asString }
  | .Year, .int i => .ok { b with Year := i }
  | .Year, .str s =>
    match s.toInt? with
    | some i => .ok { b with Year := i }
    | none => .error .ErrScan

/-- `Rows.Scan(dest...)` on the current row: column `i` goes to destination
`i`; the numbers of columns and destinations must agree. Both callers drop the
book when `Scan` fails, so what a failed `Scan` has already written is not
kept. -/
def scanRow : List Value → List Field → Book → Except GoError Book
  | [], [], b => .ok b
  | v :: vs, d :: ds, b =>
    match Field.store b d v with
    | .ok b1 => scanRow vs ds b1
    | .error e => .error e
  | _, _, _ => .error .ErrScan

/-- The value `*sql.Row` of `QueryRowContext`: the error of the query, if it
failed, or its cursor. -/
structure Row where
  err : Option GoError
  rows : Option Rows
deriving DecidableEq, Repr

/-- `DB.QueryRowContext(ctx, query, args...)`: never fails itself; the error is
kept until `Scan`. -/
def DB.QueryRowContext (db : DB) (query : Stmt) (args : List Value) : Row :=
  let out := db.QueryContext query args
  ⟨out.2, out.1⟩

/-- `Row.Scan(dest...)`: the error kept from the query; else, when there is no
first row, the error of the cursor or `sql.ErrNoRows`; else the first row
scanned into the destinations. -/
def Row.Scan (r : Row) (dest : List Field) (b : Book) : Except GoError Book :=
  match r.err with
  | some e => .error e
  | none =>
    match r.rows with
    | none => .error .ErrNoRows
    | some rows =>
      match rows.pending with
      | [] =>
        match rows.err with
        | some e => .error e
        | none => .error .ErrNoRows
      | vals :: _ => scanRow vals dest b

/-! ## Repository (`internal/repository`) -/

/-- The interface `BookRepository`: five operations over a store of type `σ`.
The `*domain.Book` arguments are passed by value: the implementation in the
repository only reads them. -/
structure BookRepository (σ : Type) where
  Create : Book → σ → Option GoError × σ
  GetByID : String → σ → (Option Book × Option GoError) × σ
  GetAll : σ → (Slice Book × Option GoError) × σ
  Update : Book → σ → Option GoError × σ
  Delete : String → σ → Option GoError × σ

namespace MySQLBookRepository

/-- The query of `Create`: `INSERT INTO books (id, title, author, year) VALUES (?, ?, ?, ?)`. -/
def createQuery : Stmt := .insert [.id, .title, .author, .year]

/-- The query of `GetByID`: `SELECT id, title, author, year FROM books WHERE id = ?`. -/
def getByIDQuery : Stmt := .selectById [.id, .title, .author, .year]

/-- The query of `GetAll`: `SELECT id, title, author, year FROM books`. -/
def getAllQuery : Stmt := .selectAll [.id, .title, .author, .year]

/-- The query of `Update`: `UPDATE books SET title=?, author=?, year=? WHERE id=?`. -/
def updateQuery : Stmt := .update [.title, .author, .year]

/-- The query of `Delete`: `DELETE FROM books WHERE id = ?`. -/
def deleteQuery : Stmt := .delete

/-- The destinations of both `Scan` calls: `&book.ID, &book.Title, &book.Author, &book.Year`. -/
def scanDest : List Field := [.ID, .Title, .Author, .Year]

/-- `MySQLBookRepository.Create`: execute the INSERT with `book.ID, book.Title,
book.Author, book.Year`; drop the result, return the error. -/
def Create (book : Book) (db : DB) : Option GoError × DB :=
  let out := db.ExecContext createQuery
    [.str book.ID, .str book.Title, .str book.Author, .int book.Year]
  (out.1.2, out.2)

/-- `MySQLBookRepository.GetByID`: query one row, scan it into a fresh book;
`nil` and the error when `Scan` fails, else the book and `nil`. -/
def GetByID (id : String) (db : DB) : (Option Book × Option GoError) × DB :=
  let row := db.QueryRowContext getByIDQuery [.str id]
  match row.Scan scanDest Book.zero with
  | .error err => ((none, some err), db)
  | .ok book => ((some book, none), db)

/-- The loop `for rows.Next() { ... }` of `GetAll`: each delivered row is
scanned into a fresh book and appended; a failed `Scan` returns `nil` and the
error; when `Next` returns false the loop ends. -/
def GetAll.loop : List (List Value) → Slice Book → Slice Book × Option GoError
  | [], books => (books, none)
  | vals :: rest, books =>
    match scanRow vals scanDest Book.zero with
    | .error err => (.nil, some err)
    | .ok book => GetAll.loop rest (books.append book)

/-- `MySQLBookRepository.GetAll`: `nil` and the error when the query fails;
else the books collected by the loop, starting from the nil slice
(`var books []domain.Book`), and `nil`. The cursor's `Err()` is not read after
the loop. -/
def GetAll (db : DB) : (Slice Book × Option GoError) × DB :=
  match db.QueryContext getAllQuery [] with
  | (_, some err) => ((.nil, some err), db)
  | (none, none) => ((.nil, none), db)
  | (some rows, none) => (GetAll.loop rows.pending .nil, db)

/-- `MySQLBookRepository.Update`: execute the UPDATE with `book.Title,
book.Author, book.Year, book.ID`; drop the result, return the error. -/
def Update (book : Book) (db : DB) : Option GoError × DB :=
  let out := db.ExecContext updateQuery
    [.str book.Title, .str book.Author, .int book.Year, .str book.ID]
  (out.1.2, out.2)

/-- `MySQLBookRepository.Delete`: execute the DELETE with `id`; drop the
result, return the error. -/
def Delete (id : String) (db : DB) : Option GoError × DB :=
  let out := db.ExecContext deleteQuery [.str id]
  (out.1.2, out.2)

end MySQLBookRepository

/-- `NewMySQLBookRepository`: the MySQL implementation as a `BookRepository`. -/
def NewMySQLBookRepository : BookRepository DB where
  Create := MySQLBookRepository.Create
  GetByID := MySQLBookRepository.GetByID
  GetAll := MySQLBookRepository.GetAll
  Update := MySQLBookRepository.Update
  Delete := MySQLBookRepository.Delete

/-! ## Service (`internal/app`) -/

/-- The struct `BookService`: it holds a repository. -/
structure BookService (σ : Type) where
  Repo : BookRepository σ

/-- `NewBookService`. -/
def NewBookService {σ : Type} (repo : BookRepository σ) : BookService σ := ⟨repo⟩

namespace BookService

variable {σ : Type}

/-- `BookService.CreateBook`: `return s.Repo.Create(book)`. -/
def CreateBook (s : BookService σ) (book : Book) (st : σ) : Option GoError × σ :=
  s.Repo.Create book st

/-- `BookService.GetBookByID`: `return s.Repo.GetByID(id)`. -/
def GetBookByID (s : BookService σ) (id : String) (st : σ) : (Option Book × Option GoError) × σ :=
  s.Repo.GetByID id st

/-- `BookService.GetAllBooks`: `return s.Repo.GetAll()`. -/
def GetAllBooks (s : BookService σ) (st : σ) : (Slice Book × Option GoError) × σ :=
  s.Repo.GetAll st

/-- `BookService.UpdateBook`: `return s.Repo.Update(book)`. -/
def UpdateBook (s : BookService σ) (book : Book) (st : σ) : Option GoError × σ :=
  s.Repo.Update book st

/-- `BookService.DeleteBook`: `return s.Repo.Delete(id)`. -/
def DeleteBook (s : BookService σ) (id : String) (st : σ) : Option GoError × σ :=
  s.Repo.Delete id st

end BookService

/-! ## Transport (`api/handlers`) -/

/-- A JSON document. -/
inductive JSON where
  | null
  | num (n : Int)
  | str (s : String)
  | arr (items : List JSON)
  | obj (members : List (String × JSON))

/-- Modelled from the spec: the JSON keys of `domain.Book` (its struct tags are
in the package that is not among the sources): `id`, `title`, `author`,
`year`, in the order of the fields. -/
def marshalBook (b : Book) : JSON :=
  .obj [("id", .str b.ID), ("title", .str b.Title), ("author", .str b.Author), ("year", .num b.Year)]

/-- The document `encoding/json` writes for a `*domain.Book`: `null` for the
nil pointer. -/
def marshalBookPtr : Option Book → JSON
  | none => .null
  | some b => marshalBook b

/-- The document `encoding/json` writes for a `[]domain.Book`: `null` for the
nil slice, else an array with one object per book, in order. -/
def marshalBooks : Slice Book → JSON
  | .nil => .null
  | .of xs => .arr (xs.map marshalBook)

/-- What a handler hands to the response: the text given to `http.Error`, or
the document given to the JSON encoder. -/
inductive Body where
  | text (msg : String)
  | json (doc : JSON)

/-- The response a handler produces: the status code and the body. -/
structure Response where
  status : Nat
  body : Body

/-- `http.StatusInternalServerError`. -/
def StatusInternalServerError : Nat := 500

/-- `http.StatusNotFound`. -/
def StatusNotFound : Nat := 404

/-- `http.StatusOK`, the status of a response whose handler writes a body
without setting a status. -/
def StatusOK : Nat := 200

/-- `http.Error(w, msg, code)`: a plain-text response with the given status
and message. -/
def httpError (msg : String) (code : Nat) : Response := ⟨code, .text msg⟩

/-- `json.NewEncoder(w).Encode(v)` as the first write of a handler: status 200
and the document of `v`. -/
def encodeTo (doc : JSON) : Response := ⟨StatusOK, .json doc⟩

/-- The parts of `*http.Request` the handlers read: the body, and the path
variables that the router matched (`mux.Vars(r)`). -/
structure Request where
  Body : String
  Vars : List (String × String)

/-- `mux.Vars(r)[key]`: the empty string when the key is absent. -/
def Request.pathVar (r : Request) (key : String) : String :=
  (r.Vars.lookup key).getD ""

/-- `json.NewDecoder(r.Body).Decode(&book)`: given the body and the book the
pointer refers to, the book left there and the error returned. The decoder is a
library outside the repository; the handler is stated for every decoder. -/
abbrev Decoder := String → Book → Book × Option GoError

/-- The struct `BookHandler`: it holds a service. -/
structure BookHandler (σ : Type) where
  Service : BookService σ

namespace BookHandler

variable {σ : Type}

/-- `BookHandler.CreateBook`: decode the body into a zero book, dropping the
decoder's error; call the service; on an error respond 500 with its message,
else encode the book. -/
def CreateBook (decode : Decoder) (h : BookHandler σ) (r : Request) (st : σ) : Response × σ :=
  let book := (decode r.Body Book.zero).1
  match h.Service.CreateBook book st with
  | (some err, st1) => (httpError err.Error StatusInternalServerError, st1)
  | (none, st1) => (encodeTo (marshalBook book), st1)

/-- `BookHandler.GetBook`: read the path variable `id`; call the service; on an
error respond 404 with its message, else encode the book pointer. -/
def GetBook (h : BookHandler σ) (r : Request) (st : σ) : Response × σ :=
  let id := r.pathVar "id"
  match h.Service.GetBookByID id st with
  | ((_, some err), st1) => (httpError err.Error StatusNotFound, st1)
  | ((book, none), st1) => (encodeTo (marshalBookPtr book), st1)

/-- `BookHandler.GetAllBooks`: call the service; on an error respond 500 with
its message, else encode the slice. -/
def GetAllBooks (h : BookHandler σ) (_r : Request) (st : σ) : Response × σ :=
  match h.Service.GetAllBooks st with
  | ((_, some err), st1) => (httpError err.Error StatusInternalServerError, st1)
  | ((books, none), st1) => (encodeTo (marshalBooks books), st1)

end BookHandler

/-! ## Call recording

To state that a layer calls the layer below exactly once, a repository is
wrapped so that every call is appended to a log kept next to the store. -/

/-- One call on a `BookRepository`, with its argument. -/
inductive Call where
  | Create (book : Book)
  | GetByID (id : String)
  | GetAll
  | Update (book : Book)
  | Delete (id : String)
deriving DecidableEq, Repr

/-- The repository `R` with every call logged; results and store are those of `R`. -/
def BookRepository.recording {σ : Type} (R : BookRepository σ) : BookRepository (σ × List Call) where
  Create book st := ((R.Create book st.1).1, ((R.Create book st.1).2, st.2 ++ [.Create book]))
  GetByID id st := ((R.GetByID id st.1).1, ((R.GetByID id st.1).2, st.2 ++ [.GetByID id]))
  GetAll st := ((R.GetAll st.1).1, ((R.GetAll st.1).2, st.2 ++ [.GetAll]))
  Update book st := ((R.Update book st.1).1, ((R.Update book st.1).2, st.2 ++ [.Update book]))
  Delete id st := ((R.Delete id st.1).1, ((R.Delete id st.1).2, st.2 ++ [.Delete id]))

/-! ## Service and handlers -/

/-- C1: for every repository implementation and every argument, each of the
five service operations returns exactly the value and error (and leaves exactly
the store) of the corresponding repository operation on the same argument, and
on the recording repository it adds exactly one call to the log: the
corresponding repository call with the same argument. -/
theorem service_delegates_once {σ : Type} (R : BookRepository σ) (st : σ) (log : List Call)
    (book : Book) (id : String) :
    ((NewBookService R.recording).CreateBook book (st, log)
        = ((R.Create book st).1, ((R.Create book st).2, log ++ [Call.Create book]))
      ∧ (NewBookService R.recording).GetBookByID id (st, log)
        = ((R.GetByID id st).1, ((R.GetByID id st).2, log ++ [Call.GetByID id]))
      ∧ (NewBookService R.recording).GetAllBooks (st, log)
        = ((R.GetAll st).1, ((R.GetAll st).2, log ++ [Call.GetAll]))
      ∧ (NewBookService R.recording).UpdateBook book (st, log)
        = ((R.Update book st).1, ((R.Update book st).2, log ++ [Call.Update book]))
      ∧ (NewBookService R.recording).DeleteBook id (st, log)
        = ((R.Delete id st).1, ((R.Delete id st).2, log ++ [Call.Delete id])))
    ∧ ((NewBookService R).CreateBook book st = R.Create book st
      ∧ (NewBookService R).GetBookByID id st = R.GetByID id st
      ∧ (NewBookService R).GetAllBooks st = R.GetAll st
      ∧ (NewBookService R).UpdateBook book st = R.Update book st
      ∧ (NewBookService R).DeleteBook id st = R.Delete id st) :=
  ⟨⟨rfl, rfl, rfl, rfl, rfl⟩, ⟨rfl, rfl, rfl, rfl, rfl⟩⟩

/-- C4: for every request, the GetBook handler calls the service (and through
it the repository) exactly once, with the value of the path variable `id`; if
the call returns an error the response is status 404 with the error message as
plain text and no book; if it returns no error the response is status 200 with
the JSON document of the returned book. -/
theorem getBook_handler {σ : Type} (R : BookRepository σ) (r : Request) (st : σ)
    (log : List Call) :
    (BookHandler.GetBook ⟨NewBookService R.recording⟩ r (st, log)).2
        = ((R.GetByID (r.pathVar "id") st).2, log ++ [Call.GetByID (r.pathVar "id")])
    ∧ (∀ err, (R.GetByID (r.pathVar "id") st).1.2 = some err →
        (BookHandler.GetBook ⟨NewBookService R.recording⟩ r (st, log)).1
          = ⟨404, Body.text err.Error⟩)
    ∧ ((R.GetByID (r.pathVar "id") st).1.2 = none →
        (BookHandler.GetBook ⟨NewBookService R.recording⟩ r (st, log)).1
          = ⟨200, Body.json (marshalBookPtr (R.GetByID (r.pathVar "id") st).1.1)⟩) := by
  simp only [BookHandler.GetBook, BookService.GetBookByID, NewBookService,
    BookRepository.recording]
  rcases h : R.GetByID (r.pathVar "id") st with ⟨⟨book, err⟩, st1⟩
  cases err <;> simp [httpError, encodeTo, StatusNotFound, StatusOK]

/-- Witness of C4: a lookup in an empty, reachable store is answered 404 with
the message of `sql.ErrNoRows`. -/
theorem getBook_handler_witness :
    (BookHandler.GetBook ⟨NewBookService NewMySQLBookRepository.recording⟩
        ⟨"", [("id", "b1")]⟩ (⟨Link.up, []⟩, [])).1
      = ⟨404, Body.text "sql: no rows in result set"⟩ :=
  (getBook_handler NewMySQLBookRepository ⟨"", [("id", "b1")]⟩ ⟨Link.up, []⟩ []).2.1
    GoError.ErrNoRows rfl

/-- C5, as stated, fails: on an unreachable store the service returns the
connection error, which is not the not-found error, and the GetBook handler
answers 404, not 500. -/
theorem getBook_unreachable_store_is_404 :
    ((NewBookService NewMySQLBookRepository).GetBookByID "b1" ⟨Link.down, []⟩).1.2
        = some GoError.ErrBadConn
    ∧ GoError.ErrBadConn ≠ GoError.ErrNoRows
    ∧ (BookHandler.GetBook ⟨NewBookService NewMySQLBookRepository⟩
        ⟨"", [("id", "b1")]⟩ ⟨Link.down, []⟩).1.status = 404
    ∧ ¬ (BookHandler.GetBook ⟨NewBookService NewMySQLBookRepository⟩
        ⟨"", [("id", "b1")]⟩ ⟨Link.down, []⟩).1.status = 500 := by
  refine ⟨rfl, by decide, rfl, by decide⟩

/-- C5, amended: the GetBook handler does not look at the kind of the error;
every error the service returns, the not-found error and any other alike,
yields status 404 with the message of that error. -/
theorem getBook_any_error_is_404 {σ : Type} (R : BookRepository σ) (r : Request) (st : σ)
    (err : GoError)
    (herr : ((NewBookService R).GetBookByID (r.pathVar "id") st).1.2 = some err) :
    (BookHandler.GetBook ⟨NewBookService R⟩ r st).1 = ⟨StatusNotFound, Body.text err.Error⟩
    ∧ StatusNotFound = 404 := by
  simp only [BookHandler.GetBook]
  rcases h : (NewBookService R).GetBookByID (r.pathVar "id") st with ⟨⟨book, e⟩, st1⟩
  rw [h] at herr
  simp only at herr
  subst herr
  exact ⟨rfl, rfl⟩

/-- Witness of the amended C5: the connection error of an unreachable store
yields 404. -/
theorem getBook_any_error_is_404_witness :
    (BookHandler.GetBook ⟨NewBookService NewMySQLBookRepository⟩
        ⟨"", [("id", "b1")]⟩ ⟨Link.down, []⟩).1
      = ⟨StatusNotFound, Body.text GoError.ErrBadConn.Error⟩
    ∧ StatusNotFound = 404 :=
  getBook_any_error_is_404 NewMySQLBookRepository ⟨"", [("id", "b1")]⟩ ⟨Link.down, []⟩
    GoError.ErrBadConn rfl

/-- The GetAllBooks handler, for every repository: one call of `GetAll`; an
error gives status 500 with its message; no error gives status 200 with the
document of the returned slice, which is an array with one object per book in
order when the slice is not nil. -/
theorem getAllBooks_handler {σ : Type} (R : BookRepository σ) (r : Request) (st : σ)
    (log : List Call) :
    (BookHandler.GetAllBooks ⟨NewBookService R.recording⟩ r (st, log)).2
        = ((R.GetAll st).2, log ++ [Call.GetAll])
    ∧ (∀ err, (R.GetAll st).1.2 = some err →
        (BookHandler.GetAllBooks ⟨NewBookService R.recording⟩ r (st, log)).1
          = ⟨500, Body.text err.Error⟩)
    ∧ (∀ books, (R.GetAll st).1 = (Slice.of books, none) →
        (BookHandler.GetAllBooks ⟨NewBookService R.recording⟩ r (st, log)).1
          = ⟨200, Body.json (JSON.arr (books.map marshalBook))⟩)
    ∧ ((R.GetAll st).1 = (Slice.nil, none) →
        (BookHandler.GetAllBooks ⟨NewBookService R.recording⟩ r (st, log)).1
          = ⟨200, Body.json JSON.null⟩) := by
  simp only [BookHandler.GetAllBooks, BookService.GetAllBooks, NewBookService,
    BookRepository.recording]
  rcases h : R.GetAll st with ⟨⟨books, err⟩, st1⟩
  cases err <;> cases books <;>
    simp [httpError, encodeTo, StatusInternalServerError, StatusOK, marshalBooks]

/-- C6 at its failing input: with an empty, reachable store `GetAll` returns
the nil slice and no error, and the GetAllBooks handler answers status 200 with
the JSON document `null`, which is not the empty array. -/
theorem getAllBooks_empty_store_is_null :
    (MySQLBookRepository.GetAll ⟨Link.up, []⟩).1 = (Slice.nil, none)
    ∧ (BookHandler.GetAllBooks ⟨NewBookService NewMySQLBookRepository⟩ ⟨"", []⟩
        ⟨Link.up, []⟩).1 = ⟨200, Body.json JSON.null⟩
    ∧ JSON.null ≠ JSON.arr [] :=
  ⟨rfl, rfl, fun h => JSON.noConfusion h⟩

/-- C7: for every decoder and every request body, the CreateBook handler calls
the service (and through it the repository) exactly once, with the book the
decoder left in the zero book, whatever error the decoder returned; if the call
returns an error the response is status 500 with the error message as plain
text and no book; if it returns no error the response is status 200 with the
JSON document of that book. -/
theorem createBook_handler {σ : Type} (decode : Decoder) (R : BookRepository σ) (r : Request)
    (st : σ) (log : List Call) :
    (BookHandler.CreateBook decode ⟨NewBookService R.recording⟩ r (st, log)).2
        = ((R.Create (decode r.Body Book.zero).1 st).2,
            log ++ [Call.Create (decode r.Body Book.zero).1])
    ∧ (∀ err, (R.Create (decode r.Body Book.zero).1 st).1 = some err →
        (BookHandler.CreateBook decode ⟨NewBookService R.recording⟩ r (st, log)).1
          = ⟨500, Body.text err.Error⟩)
    ∧ ((R.Create (decode r.Body Book.zero).1 st).1 = none →
        (BookHandler.CreateBook decode ⟨NewBookService R.recording⟩ r (st, log)).1
          = ⟨200, Body.json (marshalBook (decode r.Body Book.zero).1)⟩)
    ∧ ((decode r.Body Book.zero).1 = Book.zero →
        (BookHandler.CreateBook decode ⟨NewBookService R.recording⟩ r (st, log)).2.2
          = log ++ [Call.Create Book.zero])
    ∧ (∀ decode2 : Decoder, (decode2 r.Body Book.zero).1 = (decode r.Body Book.zero).1 →
        BookHandler.CreateBook decode2 ⟨NewBookService R.recording⟩ r (st, log)
          = BookHandler.CreateBook decode ⟨NewBookService R.recording⟩ r (st, log)) := by
  simp only [BookHandler.CreateBook, BookService.CreateBook, NewBookService,
    BookRepository.recording]
  refine ⟨?_, ?_, ?_, ?_, ?_⟩
  · rcases h : R.Create (decode r.Body Book.zero).1 st with ⟨err, st1⟩
    cases err <;> simp
  · intro err herr
    rcases h : R.Create (decode r.Body Book.zero).1 st with ⟨e, st1⟩
    rw [h] at herr
    simp only at herr
    subst herr
    simp [httpError, StatusInternalServerError]
  · intro herr
    rcases h : R.Create (decode r.Body Book.zero).1 st with ⟨e, st1⟩
    rw [h] at herr
    simp only at herr
    subst herr
    simp [encodeTo, StatusOK]
  · intro hz
    rw [hz]
    rcases h : R.Create Book.zero st with ⟨err, st1⟩
    cases err <;> simp
  · intro decode2 h2
    rw [h2]

/-- Witness of C7: a decoder that rejects the body and writes nothing, on an
empty reachable store: the zero book is created and written back with status
200. -/
theorem createBook_handler_witness :
    (BookHandler.CreateBook (fun _ b => (b, some GoError.ErrScan))
        ⟨NewBookService NewMySQLBookRepository.recording⟩ ⟨"not json", []⟩
        (⟨Link.up, []⟩, [])).1
      = ⟨200, Body.json (marshalBook Book.zero)⟩ :=
  (createBook_handler (fun _ b => (b, some GoError.ErrScan)) NewMySQLBookRepository
    ⟨"not json", []⟩ ⟨Link.up, []⟩ []).2.2.1 rfl

/-! ## Repository over the store -/

theorem hit_str (id : String) (r : Record) :
    r.hit (Value.str id) = decide (r.id = id) := by
  unfold Record.hit
  by_cases h : r.id = id
  · simp [h]
  · have hv : Value.str r.id ≠ Value.str id := fun hc => h (Value.str.inj hc)
    simp [h, hv]

theorem filter_hit_absent (id : String) (l : List Record) (h : ∀ r ∈ l, r.id ≠ id) :
    l.filter (Record.hit (Value.str id)) = [] := by
  rw [List.filter_eq_nil_iff]
  intro r hr
  simp [hit_str, h r hr]

theorem filter_not_hit_absent (id : String) (l : List Record) (h : ∀ r ∈ l, r.id ≠ id) :
    l.filter (fun x => !(x.hit (Value.str id))) = l := by
  rw [List.filter_eq_self]
  intro r hr
  simp [hit_str, h r hr]

theorem scanRow_project (r : Record) :
    scanRow (Record.project [Column.id, Column.title, Column.author, Column.year] r)
      MySQLBookRepository.scanDest Book.zero = Except.ok r.toBook := by
  simp [Record.project, Record.get, MySQLBookRepository.scanDest, scanRow, Field.store,
    Value.asString, Book.zero, Record.toBook]

/-- On a reachable store `GetByID` is decided by the first row whose `id` matches. -/
theorem getByID_up (id : String) (books : List Record) :
    MySQLBookRepository.GetByID id ⟨Link.up, books⟩
      = match books.filter (Record.hit (Value.str id)) with
        | [] => ((none, some GoError.ErrNoRows), ⟨Link.up, books⟩)
        | r :: _ => ((some r.toBook, none), ⟨Link.up, books⟩) := by
  simp only [MySQLBookRepository.GetByID, DB.QueryRowContext, DB.QueryContext, DB.resultSet,
    MySQLBookRepository.getByIDQuery, Rows.stream, Row.Scan]
  cases hf : books.filter (Record.hit (Value.str id)) with
  | nil => simp
  | cons r rest => simp [scanRow_project]

/-- On a reachable store `Create` of a fresh `id` appends the row of the book. -/
theorem create_up_fresh (b : Book) (db : DB) (hup : db.link = Link.up)
    (hfresh : ∀ r ∈ db.books, r.id ≠ b.ID) :
    MySQLBookRepository.Create b db
      = (none, ⟨db.link, db.books ++ [⟨b.ID, b.Title, b.Author, b.Year⟩]⟩) := by
  rcases db with ⟨link, books⟩
  simp only at hup hfresh
  subst hup
  have hany : (books.any fun x => x.id == b.ID) = false := by
    rw [List.any_eq_false]
    intro r hr
    simpa using hfresh r hr
  simp [MySQLBookRepository.Create, DB.ExecContext, MySQLBookRepository.createQuery,
    Record.assign, Record.set, Record.blank, hany]

/-- The row the UPDATE of `Update` leaves in place of a row. -/
theorem updated_eq (b : Book) (r : Record) :
    Record.updated [Column.title, Column.author, Column.year]
        [Value.str b.Title, Value.str b.Author, Value.int b.Year] (Value.str b.ID) r
      = if r.id = b.ID then ⟨r.id, b.Title, b.Author, b.Year⟩ else r := by
  simp [Record.updated, hit_str, Record.assign, Record.set]

/-- On a reachable store `Update` succeeds and rewrites the rows whose `id` matches. -/
theorem update_up (b : Book) (db : DB) (hup : db.link = Link.up) :
    MySQLBookRepository.Update b db
      = (none, ⟨db.link, db.books.map
          (fun r => if r.id = b.ID then ⟨r.id, b.Title, b.Author, b.Year⟩ else r)⟩) := by
  rcases db with ⟨link, books⟩
  simp only at hup
  subst hup
  have hfun : Record.updated [Column.title, Column.author, Column.year]
        [Value.str b.Title, Value.str b.Author, Value.int b.Year] (Value.str b.ID)
      = fun r => if r.id = b.ID then (⟨r.id, b.Title, b.Author, b.Year⟩ : Record) else r :=
    funext (updated_eq b)
  simp [MySQLBookRepository.Update, DB.ExecContext, MySQLBookRepository.updateQuery,
    Record.assign, Record.set, Record.blank, hfun]

/-- On a reachable store `Delete` succeeds and removes the rows whose `id` matches. -/
theorem delete_up (id : String) (db : DB) (hup : db.link = Link.up) :
    MySQLBookRepository.Delete id db
      = (none, ⟨db.link, db.books.filter (fun x => !(x.hit (Value.str id)))⟩) := by
  rcases db with ⟨link, books⟩
  simp only at hup
  subst hup
  simp [MySQLBookRepository.Delete, DB.ExecContext, MySQLBookRepository.deleteQuery]

/-- After the rewrite of `Update`, the rows that match `b.ID` start with the row of `b`. -/
theorem filter_hit_map_updated (b : Book) (l : List Record) (h : ∃ r ∈ l, r.id = b.ID) :
    ∃ rest, (l.map (fun r => if r.id = b.ID then (⟨r.id, b.Title, b.Author, b.Year⟩ : Record)
        else r)).filter (Record.hit (Value.str b.ID))
      = ⟨b.ID, b.Title, b.Author, b.Year⟩ :: rest := by
  induction l with
  | nil => simp at h
  | cons x xs ih =>
    by_cases hx : x.id = b.ID
    · simp [List.filter_cons, hit_str, hx]
    · have hxs : ∃ r ∈ xs, r.id = b.ID := by
        rcases h with ⟨r, hr, hid⟩
        rcases List.mem_cons.mp hr with rfl | hr
        · exact absurd hid hx
        · exact ⟨r, hr, hid⟩
      rcases ih hxs with ⟨rest, hrest⟩
      refine ⟨rest, ?_⟩
      simp only [List.map_cons, List.filter_cons, hit_str, hx, if_false, decide_False]
      simpa [hit_str] using hrest

/-- C2: for every book `b` and every reachable store with no row whose `id`
is `b.ID`, `Create b` succeeds and a following `GetByID b.ID` returns a book
whose `ID`, `Title`, `Author` and `Year` are those of `b`. -/
theorem create_then_getByID (b : Book) (db : DB) (hup : db.link = Link.up)
    (hfresh : ∀ r ∈ db.books, r.id ≠ b.ID) :
    (MySQLBookRepository.Create b db).1 = none
    ∧ (MySQLBookRepository.GetByID b.ID (MySQLBookRepository.Create b db).2).1
        = (some ⟨b.ID, b.Title, b.Author, b.Year⟩, none) := by
  rw [create_up_fresh b db hup hfresh]
  rcases db with ⟨link, books⟩
  simp only at hup hfresh
  subst hup
  refine ⟨rfl, ?_⟩
  dsimp only
  rw [getByID_up]
  simp [List.filter_append, filter_hit_absent b.ID books hfresh, List.filter_cons, hit_str,
    Record.toBook]

/-- Witness of C2: the book `b1` of the spec's scenario, created in an empty
reachable store and read back. -/
theorem create_then_getByID_witness :
    (MySQLBookRepository.Create ⟨"b1", "Dune", "Herbert", 1965⟩ ⟨Link.up, []⟩).1 = none
    ∧ (MySQLBookRepository.GetByID "b1"
        (MySQLBookRepository.Create ⟨"b1", "Dune", "Herbert", 1965⟩ ⟨Link.up, []⟩).2).1
        = (some ⟨"b1", "Dune", "Herbert", 1965⟩, none) :=
  create_then_getByID ⟨"b1", "Dune", "Herbert", 1965⟩ ⟨Link.up, []⟩ rfl
    (fun _ hr => absurd hr (List.not_mem_nil _))

/-- C3: on a reachable store, `GetByID` of an `id` that has no row returns no
book and the error `sql.ErrNoRows`; this is the case after `Delete` of that
`id`, which succeeds; and `sql.ErrNoRows` differs from the error `GetByID`
returns when the store is unreachable. -/
theorem getByID_absent_is_ErrNoRows (id : String) (db : DB) (hup : db.link = Link.up) :
    ((∀ r ∈ db.books, r.id ≠ id) →
        MySQLBookRepository.GetByID id db = ((none, some GoError.ErrNoRows), db))
    ∧ ((MySQLBookRepository.Delete id db).1 = none
        ∧ (MySQLBookRepository.GetByID id (MySQLBookRepository.Delete id db).2).1
            = (none, some GoError.ErrNoRows))
    ∧ ((MySQLBookRepository.GetByID id ⟨Link.down, db.books⟩).1 = (none, some GoError.ErrBadConn)
        ∧ GoError.ErrBadConn ≠ GoError.ErrNoRows) := by
  rw [delete_up id db hup]
  rcases db with ⟨link, books⟩
  simp only at hup
  subst hup
  refine ⟨?_, ⟨rfl, ?_⟩, ⟨rfl, by decide⟩⟩
  · intro habsent
    rw [getByID_up, filter_hit_absent id books habsent]
  · dsimp only
    rw [getByID_up]
    have hnone : (books.filter (fun x => !(x.hit (Value.str id)))).filter
        (Record.hit (Value.str id)) = [] := by
      rw [List.filter_eq_nil_iff]
      intro r hr
      have := (List.mem_filter.mp hr).2
      simpa using this
    simp only [hnone]

/-- Witness of C3: the spec's scenario, `b1` stored, `Delete` then `GetByID`. -/
theorem getByID_absent_is_ErrNoRows_witness :
    (MySQLBookRepository.GetByID "b1"
        (MySQLBookRepository.Delete "b1" ⟨Link.up, [⟨"b1", "Dune", "Herbert", 1965⟩]⟩).2).1
      = (none, some GoError.ErrNoRows) :=
  (getByID_absent_is_ErrNoRows "b1" ⟨Link.up, [⟨"b1", "Dune", "Herbert", 1965⟩]⟩ rfl).2.1.2

/-- C8: for every reachable store and every book `b` whose `ID` has a row,
`Update b` succeeds; a following `GetByID b.ID` returns `b.ID`, `b.Title`,
`b.Author`, `b.Year`; the rows with another `id` are the same rows in the same
order; and the list of the `id`s of the store is unchanged. -/
theorem update_existing (b : Book) (db : DB) (hup : db.link = Link.up)
    (hrow : ∃ r ∈ db.books, r.id = b.ID) :
    (MySQLBookRepository.Update b db).1 = none
    ∧ (MySQLBookRepository.GetByID b.ID (MySQLBookRepository.Update b db).2).1
        = (some ⟨b.ID, b.Title, b.Author, b.Year⟩, none)
    ∧ (MySQLBookRepository.Update b db).2.books.filter (fun r => decide (r.id ≠ b.ID))
        = db.books.filter (fun r => decide (r.id ≠ b.ID))
    ∧ (MySQLBookRepository.Update b db).2.books.map Record.id = db.books.map Record.id
    ∧ (MySQLBookRepository.Update b db).2.link = db.link := by
  rw [update_up b db hup]
  rcases db with ⟨link, books⟩
  simp only at hup hrow
  subst hup
  refine ⟨rfl, ?_, ?_, ?_, rfl⟩
  · dsimp only
    rw [getByID_up]
    rcases filter_hit_map_updated b books hrow with ⟨rest, hrest⟩
    simp only [hrest, Record.toBook]
  · simp only
    clear hrow
    induction books with
    | nil => rfl
    | cons x xs ih =>
      by_cases hx : x.id = b.ID
      · simpa [List.filter_cons, hx] using ih
      · simpa [List.filter_cons, hx] using ih
  · simp only [List.map_map]
    apply List.map_congr_left
    intro r _
    by_cases hx : r.id = b.ID <;> simp [hx]

/-- Witness of C8: the row of `b1` rewritten in a store that also holds `b2`. -/
theorem update_existing_witness :
    (MySQLBookRepository.GetByID "b1" (MySQLBookRepository.Update ⟨"b1", "Emma", "Austen", 1815⟩
        ⟨Link.up, [⟨"b1", "Dune", "Herbert", 1965⟩, ⟨"b2", "Ulysses", "Joyce", 1922⟩]⟩).2).1
      = (some ⟨"b1", "Emma", "Austen", 1815⟩, none) :=
  (update_existing ⟨"b1", "Emma", "Austen", 1815⟩
    ⟨Link.up, [⟨"b1", "Dune", "Herbert", 1965⟩, ⟨"b2", "Ulysses", "Joyce", 1922⟩]⟩ rfl
    ⟨⟨"b1", "Dune", "Herbert", 1965⟩, List.mem_cons_self _ _, rfl⟩).2.1

/-- C10: `Update` and `Delete` return exactly the error of their execute call,
for every store; and on a reachable store with no row of the `id`, both return
no error and leave the store as it is, although the execute call reports zero
rows affected. -/
theorem update_delete_absent_succeed (b : Book) (id : String) (db : DB) :
    (MySQLBookRepository.Update b db).1
        = (db.ExecContext MySQLBookRepository.updateQuery
            [Value.str b.Title, Value.str b.Author, Value.int b.Year, Value.str b.ID]).1.2
    ∧ (MySQLBookRepository.Delete id db).1
        = (db.ExecContext MySQLBookRepository.deleteQuery [Value.str id]).1.2
    ∧ (db.link = Link.up → (∀ r ∈ db.books, r.id ≠ b.ID) →
        MySQLBookRepository.Update b db = (none, db)
        ∧ (db.ExecContext MySQLBookRepository.updateQuery
            [Value.str b.Title, Value.str b.Author, Value.int b.Year, Value.str b.ID]).1.1
          = some ⟨0⟩)
    ∧ (db.link = Link.up → (∀ r ∈ db.books, r.id ≠ id) →
        MySQLBookRepository.Delete id db = (none, db)
        ∧ (db.ExecContext MySQLBookRepository.deleteQuery [Value.str id]).1.1 = some ⟨0⟩) := by
  refine ⟨rfl, rfl, ?_, ?_⟩
  · intro hup habsent
    have hmap : db.books.map (fun r => if r.id = b.ID then
        (⟨r.id, b.Title, b.Author, b.Year⟩ : Record) else r) = db.books := by
      conv_rhs => rw [← List.map_id db.books]
      apply List.map_congr_left
      intro r hr
      simp [habsent r hr]
    refine ⟨?_, ?_⟩
    · rw [update_up b db hup, hmap]
    · rcases db with ⟨link, books⟩
      simp only at hup habsent hmap
      subst hup
      simp [DB.ExecContext, MySQLBookRepository.updateQuery, Record.assign, Record.set,
        Record.blank]
      intro a ha
      rw [updated_eq]
      simp [habsent a ha]
  · intro hup habsent
    refine ⟨?_, ?_⟩
    · rw [delete_up id db hup, filter_not_hit_absent id db.books habsent]
    · rcases db with ⟨link, books⟩
      simp only at hup habsent
      subst hup
      simp [DB.ExecContext, MySQLBookRepository.deleteQuery,
        filter_hit_absent id books habsent]

/-- Witness of C10: `Update` and `Delete` of `zz` in a store that holds only `b1`. -/
theorem update_delete_absent_succeed_witness :
    MySQLBookRepository.Update ⟨"zz", "Emma", "Austen", 1815⟩
        ⟨Link.up, [⟨"b1", "Dune", "Herbert", 1965⟩]⟩
      = (none, ⟨Link.up, [⟨"b1", "Dune", "Herbert", 1965⟩]⟩)
    ∧ MySQLBookRepository.Delete "zz" ⟨Link.up, [⟨"b1", "Dune", "Herbert", 1965⟩]⟩
      = (none, ⟨Link.up, [⟨"b1", "Dune", "Herbert", 1965⟩]⟩) :=
  ⟨((update_delete_absent_succeed ⟨"zz", "Emma", "Austen", 1815⟩ "zz"
      ⟨Link.up, [⟨"b1", "Dune", "Herbert", 1965⟩]⟩).2.2.1 rfl (by decide)).1,
   ((update_delete_absent_succeed ⟨"zz", "Emma", "Austen", 1815⟩ "zz"
      ⟨Link.up, [⟨"b1", "Dune", "Herbert", 1965⟩]⟩).2.2.2 rfl (by decide)).1⟩

/-- The loop of `GetAll` over complete rows never fails and appends the book of
each row, in order. -/
theorem getAll_loop_project (l : List Record) (acc : Slice Book) :
    MySQLBookRepository.GetAll.loop
        (l.map (Record.project [Column.id, Column.title, Column.author, Column.year])) acc
      = (l.foldl (fun s r => s.append r.toBook) acc, none) := by
  induction l generalizing acc with
  | nil => rfl
  | cons x xs ih =>
    simp only [List.map_cons, MySQLBookRepository.GetAll.loop, scanRow_project, List.foldl_cons]
    exact ih _

theorem foldl_append_toList (l : List Record) (acc : Slice Book) :
    (l.foldl (fun s r => s.append r.toBook) acc).toList = acc.toList ++ l.map Record.toBook := by
  induction l generalizing acc with
  | nil => simp
  | cons x xs ih =>
    rw [List.foldl_cons, ih]
    cases acc <;> simp [Slice.append, Slice.toList]

/-- On a reachable store `GetAll` returns no error and the books of exactly the
stored rows, each once, in the order of the store; the store is unchanged. -/
theorem getAll_up (books : List Record) :
    (MySQLBookRepository.GetAll ⟨Link.up, books⟩).1.2 = none
    ∧ (MySQLBookRepository.GetAll ⟨Link.up, books⟩).1.1.toList = books.map Record.toBook
    ∧ (MySQLBookRepository.GetAll ⟨Link.up, books⟩).1.1.len = books.length
    ∧ (MySQLBookRepository.GetAll ⟨Link.up, books⟩).2 = ⟨Link.up, books⟩ := by
  have h : MySQLBookRepository.GetAll ⟨Link.up, books⟩
      = ((books.foldl (fun s r => s.append r.toBook) Slice.nil, none), ⟨Link.up, books⟩) := by
    simp only [MySQLBookRepository.GetAll, DB.QueryContext, DB.resultSet,
      MySQLBookRepository.getAllQuery, Rows.stream, getAll_loop_project]
  rw [h]
  have ht : (books.foldl (fun s r => s.append r.toBook) Slice.nil).toList
      = books.map Record.toBook := by
    rw [foldl_append_toList]
    rfl
  refine ⟨rfl, ht, ?_, rfl⟩
  show (books.foldl (fun s r => s.append r.toBook) Slice.nil).toList.length = books.length
  rw [ht, List.length_map]

/-- C9 at its failing input: the store holds the two books created by two
successful `Create` calls; the connection fails after one row of the result set
has been delivered, so the cursor carries an error; `GetAll` returns no error
and a sequence of one book. -/
theorem getAll_dropped_connection_short_success :
    (MySQLBookRepository.Create ⟨"b2", "Emma", "Austen", 1815⟩
        (MySQLBookRepository.Create ⟨"b1", "Dune", "Herbert", 1965⟩ ⟨Link.up, []⟩).2)
      = (none, ⟨Link.up, [⟨"b1", "Dune", "Herbert", 1965⟩, ⟨"b2", "Emma", "Austen", 1815⟩]⟩)
    ∧ (DB.QueryContext
        ⟨Link.dropsAfter 1, [⟨"b1", "Dune", "Herbert", 1965⟩, ⟨"b2", "Emma", "Austen", 1815⟩]⟩
        MySQLBookRepository.getAllQuery [])
      = (some ⟨[[Value.str "b1", Value.str "Dune", Value.str "Herbert", Value.int 1965]],
          some GoError.ErrBadConn⟩, none)
    ∧ (MySQLBookRepository.GetAll
        ⟨Link.dropsAfter 1, [⟨"b1", "Dune", "Herbert", 1965⟩, ⟨"b2", "Emma", "Austen", 1815⟩]⟩).1
      = (Slice.of [⟨"b1", "Dune", "Herbert", 1965⟩], none)
    ∧ (Slice.of [(⟨"b1", "Dune", "Herbert", 1965⟩ : Book)]).len = 1
    ∧ ([⟨"b1", "Dune", "Herbert", 1965⟩, ⟨"b2", "Emma", "Austen", 1815⟩] : List Record).length
      = 2 := by
  refine ⟨by decide, by decide, by decide, rfl, rfl⟩

end MyFirstGoApp
